import Mathlib

/-!
# UltraSinger webapp frontend: job progress reconciliation and lifecycle

Shallow embedding of the job-queue frontend code:
* `src/webapp/frontend/src/components/ProgressCard.vue` (display computeds,
  step classification, action-button guards),
* the job-queue component bundled with
  `src/webapp/frontend/src/utils/notifications.js` (refreshJobs, handleCancel,
  handleRetry, handleDelete),
* `src/webapp/frontend/src/utils/notifications.js` (browser notification
  permission flag and notification constructors).

JS numbers are modelled as `ℚ`; optional / possibly-`undefined` fields as
`Option`; JS truthiness on strings and numbers is modelled explicitly
(empty string and `0` are falsy).
-/

namespace UltraSinger

/-- JS `Math.round` on a rational: rounds to the nearest integer, with halves
toward positive infinity, which is `⌊q + 1/2⌋`. -/
def jsRound (q : ℚ) : ℤ := ⌊q + 1/2⌋

/-- Job status values used by the frontend. -/
inductive Status where
  | queued
  | processing
  | completed
  | failed
  | cancelled
deriving DecidableEq, Repr

/-- A terminal status: `completed`, `failed` or `cancelled`. -/
def Status.isTerminal : Status → Bool
  | .completed => true
  | .failed => true
  | .cancelled => true
  | .queued => false
  | .processing => false

/-- Shape of a progress object: the `job.progress` field of a poll snapshot and the
push event payload delivered by the web socket share this shape.  Every field
may be absent (`undefined` in JS). -/
structure Progress where
  step : Option String
  percentage : Option ℚ
  message : Option String
  elapsed_seconds : Option ℚ
deriving DecidableEq, Repr

/-- A job record as stored in the `jobs` array of the job-queue component: the
fields the embedded code reads. -/
structure Job where
  job_id : String
  status : Status
  queue_position : Option ℤ
  progress : Option Progress
  elapsed_seconds : Option ℚ
  error_message : Option String
  is_duet : Bool
  estimated_duration_seconds : Option ℚ
  custom_name : Option String
  title : Option String
deriving DecidableEq, Repr

/-- JS truthiness filter for an optional string: an absent or empty string is
falsy, anything else passes through. -/
def strTruthy : Option String → Option String
  | none => none
  | some s => if s.isEmpty then none else some s

/-- JS truthiness filter for an optional number: absent or `0` is falsy. -/
def numTruthy : Option ℚ → Option ℚ
  | none => none
  | some q => if q = 0 then none else some q

/-- The `currentStepMessage` computed (ProgressCard.vue lines 359-367):
`progress.value?.message` if truthy, else `props.job.progress?.message` if
truthy, else the literal fallback string. -/
def currentStepMessage (pushVal : Option Progress) (job : Job) : String :=
  match strTruthy (pushVal.bind Progress.message) with
  | some s => s
  | none =>
    match strTruthy (job.progress.bind Progress.message) with
    | some s => s
    | none => "Initializing..."

/-- The `progressPercentage` computed (ProgressCard.vue lines 369-377):
`Math.round(progress.value.percentage)` when the percentage of the push value is
not `undefined`, else `Math.round(job.progress.percentage)` when that is not
`undefined`, else `0`. -/
def progressPercentage (pushVal : Option Progress) (job : Job) : ℤ :=
  match pushVal.bind Progress.percentage with
  | some q => jsRound q
  | none =>
    match job.progress.bind Progress.percentage with
    | some q => jsRound q
    | none => 0

/-- The fixed ordered stage catalog (`steps` in ProgressCard.vue lines
338-344), keys only. -/
def steps : List String :=
  ["downloading", "separating", "transcribing", "pitching", "generating"]

/-- JS `Array.prototype.findIndex` specialised to a list of keys: first index
at which the catalog key equals the argument, `-1` when none matches. -/
def findIndexFrom (key : String) : List String → ℤ → ℤ
  | [], _ => -1
  | k :: ks, i => if k = key then i else findIndexFrom key ks (i + 1)

/-- JS `steps.findIndex(s => s.key === key)`: index in the catalog, `-1` when
absent. -/
def stageIdx (key : String) : ℤ :=
  findIndexFrom key steps 0

/-- The current step key as resolved in `getStepStatus` (ProgressCard.vue line
380): `progress.value?.step || props.job.progress?.step`, with JS string
truthiness. -/
def currentStepKey (pushVal : Option Progress) (job : Job) : Option String :=
  match strTruthy (pushVal.bind Progress.step) with
  | some s => some s
  | none => strTruthy (job.progress.bind Progress.step)

/-- Classification result of a step indicator. -/
inductive StepStatus where
  | completed
  | active
  | pending
deriving DecidableEq, Repr

/-- The comparison core of `getStepStatus` (ProgressCard.vue lines 379-388)
after the current step key has been resolved: `findIndex` both keys, `-1`
current means pending, then compare indices. -/
def classifyStep (currentStep : Option String) (stepKey : String) : StepStatus :=
  let currentIndex : ℤ :=
    match currentStep with
    | some s => stageIdx s
    | none => -1
  let stepIndex := stageIdx stepKey
  if currentIndex = -1 then .pending
  else if stepIndex < currentIndex then .completed
  else if stepIndex = currentIndex then .active
  else .pending

/-- The `getStepStatus` function (ProgressCard.vue lines 379-388). -/
def getStepStatus (pushVal : Option Progress) (job : Job) (stepKey : String) :
    StepStatus :=
  classifyStep (currentStepKey pushVal job) stepKey

/-- The seconds value selected by the `elapsedTime` and `estimatedRemaining`
computeds (ProgressCard.vue lines 390-401):
`progress.value?.elapsed_seconds || props.job.progress?.elapsed_seconds ||
props.job.elapsed_seconds`, with JS numeric truthiness; `none` renders no
elapsed time. -/
def elapsedSecondsSelected (pushVal : Option Progress) (job : Job) : Option ℚ :=
  match numTruthy (pushVal.bind Progress.elapsed_seconds) with
  | some q => some q
  | none =>
    match numTruthy (job.progress.bind Progress.elapsed_seconds) with
    | some q => some q
    | none => numTruthy job.elapsed_seconds

/-- The `queueMessage` computed (ProgressCard.vue lines 352-357): nothing
when `queue_position` is absent, a processing note at position 0, else a
position note.  The template shows it whenever it is non-null (line 8),
with no status guard.  Emojis of the source strings are dropped. -/
def queueMessage (job : Job) : Option String :=
  match job.queue_position with
  | none => none
  | some pos =>
    if pos = 0 then some "Currently processing"
    else some ("Position " ++ toString pos ++ " in queue")

/-- The four progress values the card presents for a non-terminal job. -/
structure DisplayedProgress where
  percentage : ℤ
  stage : Option String
  message : String
  elapsed : Option ℚ
deriving DecidableEq, Repr

/-- The progress view the card computes from the push value and the job
record. -/
def displayedProgress (pushVal : Option Progress) (job : Job) :
    DisplayedProgress where
  percentage := progressPercentage pushVal job
  stage := currentStepKey pushVal job
  message := currentStepMessage pushVal job
  elapsed := elapsedSecondsSelected pushVal job

/-- Guard of the progress-bar section (ProgressCard.vue line 23):
the status equals processing or queued.  The push
value is in scope in the component but the guard does not read it. -/
def progressSectionRendered (_pushVal : Option Progress) (job : Job) : Bool :=
  job.status == Status.processing || job.status == Status.queued

/-- Guard of the cancel button (ProgressCard.vue line 281). -/
def cancelButtonVisible (st : Status) : Bool :=
  st == Status.processing || st == Status.queued

/-- Guard of the retry button (ProgressCard.vue line 288). -/
def retryButtonVisible (st : Status) : Bool :=
  st == Status.failed || st == Status.cancelled

/-- Error raised by a remote call (axios rejection), carrying the message the
handlers surface. -/
structure RemoteError where
  message : String
deriving DecidableEq, Repr

/-- Local state of the job-queue component: the `jobs` ref, the loading flag
and the selected filter tab. -/
structure QueueState where
  jobs : List Job
  isLoading : Bool
  selectedFilter : String
deriving DecidableEq, Repr

/-- JS try/catch on a fallible body: run the body, convert a thrown error via
the handler; the combined computation never throws. -/
def tryCatch {α : Type} (body : Except RemoteError α) (handler : RemoteError → α) : α :=
  match body with
  | .ok a => a
  | .error e => handler e

/-- The `refreshJobs` function (job-queue component, lines 175-185 of the bundled file):
sets `isLoading`, awaits `listJobs`, on success assigns `jobs.value =
response.jobs`, on error only logs; `finally` clears `isLoading`.  The
`listJobs` outcome is passed in as `fetch`. -/
def refreshJobs (fetch : Except RemoteError (List Job)) (s : QueueState) : QueueState :=
  tryCatch (do
      let js ← fetch
      pure { s with jobs := js, isLoading := false })
    (fun _ => { s with isLoading := false })

/-- Result of running a lifecycle handler: which job ids were sent a remote
lifecycle command, the local state afterwards, and the alert message shown on
failure (if any). -/
structure CmdResult where
  remoteCalls : List String
  state : QueueState
  errorReported : Option String
deriving DecidableEq, Repr

/-- The `handleCancel` function (lines 187-195): awaits the remote cancel,
then awaits a refresh; a thrown error is caught and alerted.  Here `remote`
is the outcome of the cancel command and `fetch` the outcome of the list
call made by the refresh. -/
def handleCancel (jobId : String) (remote : Except RemoteError Unit)
    (fetch : Except RemoteError (List Job)) (s : QueueState) : CmdResult :=
  match remote with
  | .ok _ =>
    { remoteCalls := [jobId]
      state := refreshJobs fetch s
      errorReported := none }
  | .error _ =>
    { remoteCalls := [jobId]
      state := s
      errorReported := some "Failed to cancel job" }

/-- The `handleRetry` function (lines 197-207): awaits the remote retry, then
awaits a refresh, then selects the processing filter tab; a thrown error is
caught and alerted with its detail.  No inspection of the current status of
the job occurs anywhere in the body. -/
def handleRetry (jobId : String) (remote : Except RemoteError Unit)
    (fetch : Except RemoteError (List Job)) (s : QueueState) : CmdResult :=
  match remote with
  | .ok _ =>
    { remoteCalls := [jobId]
      state := { refreshJobs fetch s with selectedFilter := "processing" }
      errorReported := none }
  | .error e =>
    { remoteCalls := [jobId]
      state := s
      errorReported := some ("Failed to retry job: " ++ e.message) }

/-- The `handleDelete` function (lines 209-221): a confirm guard, then the
remote delete awaited and a refresh; a thrown error is caught and alerted. -/
def handleDelete (jobId : String) (confirmed : Bool)
    (remote : Except RemoteError Unit) (fetch : Except RemoteError (List Job))
    (s : QueueState) : CmdResult :=
  if !confirmed then
    { remoteCalls := [], state := s, errorReported := none }
  else
    match remote with
    | .ok _ =>
      { remoteCalls := [jobId]
        state := refreshJobs fetch s
        errorReported := none }
    | .error _ =>
      { remoteCalls := [jobId]
        state := s
        errorReported := some "Failed to delete job" }

/-- Per-job tracking state seen by a `ProgressCard`: the push value
(`progress.value` of the web-socket composable) and the job record as last
delivered by the poll (`props.job`). -/
structure TrackState where
  pushVal : Option Progress
  job : Job
deriving DecidableEq, Repr

/-- One update arriving for a tracked job: a push progress event or the record
record from a delivered poll snapshot. -/
inductive TrackEvent where
  | push (p : Progress)
  | poll (j : Job)
deriving DecidableEq, Repr

/-- How one update changes the tracking state.  The poll case is `jobs.value
= response.jobs` in `refreshJobs`, restricted to this job; nothing in the
component clears the push value when a poll arrives.  The push case is
modelled from the spec: the web-socket composable (`useWebSocket`, not under
`src/`) stores the latest received event in its `progress` ref, per the push
channel contract: a stream of events with fields stage, percentage, message
and elapsed_seconds, each applied immediately on receipt. -/
def stepEvent : TrackState → TrackEvent → TrackState
  | s, .push p => { s with pushVal := some p }
  | s, .poll j => { s with job := j }

/-- Run a sequence of updates. -/
def runEvents (s : TrackState) (evs : List TrackEvent) : TrackState :=
  evs.foldl stepEvent s

/-- The latest push payload in a sequence of updates, starting from `pv`. -/
def lastPushFrom (pv : Option Progress) (evs : List TrackEvent) : Option Progress :=
  evs.foldl
    (fun acc e =>
      match e with
      | .push p => some p
      | .poll _ => acc)
    pv

/-- The latest polled job record in a sequence of updates, starting from `j`. -/
def lastPollFrom (j : Job) (evs : List TrackEvent) : Job :=
  evs.foldl
    (fun acc e =>
      match e with
      | .poll j' => j'
      | .push _ => acc)
    j

/-- Browser notification permission values. -/
inductive Permission where
  | granted
  | denied
  | defaultPerm
deriving DecidableEq, Repr

/-- What the browser environment looks like at the moment of one call into
the notifications module: whether `Notification` exists in `window`, the
current `Notification.permission`, and what `Notification.requestPermission()`
would resolve to if invoked now. -/
structure Browser where
  hasNotifications : Bool
  permission : Permission
  requestOutcome : Permission
deriving DecidableEq, Repr

/-- The `requestNotificationPermission` function (notifications.js lines 7-25), as a
function of the browser environment and the module-level `permissionGranted`
flag; returns the call's return value and the flag afterwards. -/
def requestNotificationPermission (b : Browser) (flag : Bool) : Bool × Bool :=
  if !b.hasNotifications then
    (false, flag)
  else if b.permission == Permission.granted then
    (true, true)
  else if b.permission != Permission.denied then
    (b.requestOutcome == Permission.granted, b.requestOutcome == Permission.granted)
  else
    (false, flag)

/-- A constructed `Notification` object: the arguments passed to `new
Notification(title, options)`. -/
structure NotificationObj where
  title : String
  body : Option String
  tag : Option String
deriving DecidableEq, Repr

/-- The `showNotification` function (notifications.js lines 27-37): returns none unless
the module flag is set and the live permission is `granted`; otherwise
constructs a `Notification`. -/
def showNotification (b : Browser) (flag : Bool) (title : String)
    (body tag : Option String) : Option NotificationObj :=
  if !flag || b.permission != Permission.granted then
    none
  else
    some { title := title, body := body, tag := tag }

/-- The `notifyJobComplete` function (notifications.js lines 39-50). -/
def notifyJobComplete (b : Browser) (flag : Bool) (jobTitle : String)
    (isSuccess : Bool) : Option NotificationObj :=
  let title := if isSuccess then "Job Completed!" else "Job Failed"
  let body :=
    if isSuccess then jobTitle ++ " has been processed successfully"
    else jobTitle ++ " processing failed"
  showNotification b flag title (some body) (some "job-complete")

/-- One call into the notifications module, tagged with the browser
environment it observes. -/
inductive NotifCall where
  | request (b : Browser)
  | showNotif (b : Browser) (title : String) (body tag : Option String)
deriving DecidableEq, Repr

/-- Fold step threading the module flag through a call and appending the
return value of each `requestNotificationPermission` call to the log. -/
def notifStep : Bool × List Bool → NotifCall → Bool × List Bool
  | (flag, rets), .request b =>
    let r := requestNotificationPermission b flag
    (r.2, rets ++ [r.1])
  | (flag, rets), .showNotif _ _ _ _ => (flag, rets)

/-- Run a call sequence from the module's initial state (`permissionGranted =
false`, line 5 of notifications.js): final flag and the list of values the
request calls returned. -/
def notifTrace (calls : List NotifCall) : Bool × List Bool :=
  calls.foldl notifStep (false, [])

/-! Concrete sample values used by witnesses and counterexamples. -/

/-- A job record template with the metadata fields filled neutrally. -/
def sampleJob (id : String) (st : Status) (qp : Option ℤ) (pr : Option Progress) : Job :=
  { job_id := id
    status := st
    queue_position := qp
    progress := pr
    elapsed_seconds := none
    error_message := none
    is_duet := false
    estimated_duration_seconds := none
    custom_name := none
    title := some "Song" }

/-- Poll-delivered progress: separating at 40 percent. -/
def progSep40 : Progress :=
  ⟨some "separating", some 40, some "Separating vocals", some 25⟩

/-- Poll-delivered progress: separating at 42 percent (a later snapshot). -/
def progSep42 : Progress :=
  ⟨some "separating", some 42, some "Separating vocals", some 26⟩

/-- Poll-delivered progress with no percentage field. -/
def progNoPct : Progress :=
  ⟨some "separating", none, some "Separating vocals", some 27⟩

/-- Push event payload: transcribing at 10 percent. -/
def pushTrans : Progress :=
  ⟨some "transcribing", some 10, some "Transcribing lyrics", some 30⟩

/-- Push event payload with an empty message and zero elapsed time: those two
fields fail the JS truthiness checks of the card. -/
def pushEmptyMsg : Progress :=
  ⟨some "transcribing", some 10, some "", some 0⟩

def jobSep40 : Job := sampleJob "job-1" .processing (some 0) (some progSep40)

def jobSep42 : Job := sampleJob "job-1" .processing (some 0) (some progSep42)

def jobNoPct : Job := sampleJob "job-1" .processing (some 0) (some progNoPct)

/-- A completed job whose snapshot still carries a queue position and
progress. -/
def terminalJobWithPos : Job := sampleJob "job-2" .completed (some 3) (some progSep40)

def procJob : Job := sampleJob "job-3" .processing (some 1) (some progSep40)

def cancelledJob : Job := sampleJob "job-4" .cancelled none none

def jobA : Job := sampleJob "A" .processing (some 0) none

def jobB : Job := sampleJob "B" .queued (some 1) none

def jobC : Job := sampleJob "C" .queued (some 2) none

def initialQueueState : QueueState := ⟨[], false, "all"⟩

def stateSep40 : QueueState := ⟨[jobSep40], false, "all"⟩

def procQueueState : QueueState := ⟨[procJob], false, "all"⟩

def stateABC : QueueState := ⟨[jobA, jobB, jobC], false, "all"⟩

/-- A browser with notification support whose permission is denied. -/
def deniedBrowser : Browser := ⟨true, .denied, .denied⟩

/-!
## Theorems
-/

/-- C5: a poll refresh that fails with a transient fetch error leaves the
locally tracked job records exactly as they were — only the loading flag is
cleared — and `refreshJobs` returns a state normally (the error is consumed
by the catch handler, so no exception escapes the refresh path). -/
theorem refresh_error_preserves_jobs (e : RemoteError) (s : QueueState) :
    refreshJobs (Except.error e) s = { s with isLoading := false } ∧
    (refreshJobs (Except.error e) s).jobs = s.jobs ∧
    (refreshJobs (Except.error e) s).selectedFilter = s.selectedFilter :=
  ⟨rfl, rfl, rfl⟩

/-- C7: after every successful poll refresh the tracked job list is exactly
the returned snapshot, so every previously tracked job id absent from the
snapshot is no longer tracked. -/
theorem poll_snapshot_determines_tracked_set (snap : List Job) (s : QueueState) :
    (refreshJobs (Except.ok snap) s).jobs = snap ∧
    ∀ jid : String, jid ∉ snap.map Job.job_id →
      jid ∉ (refreshJobs (Except.ok snap) s).jobs.map Job.job_id := by
  refine ⟨rfl, ?_⟩
  intro jid h
  exact h

/-- Witness for C7: job B is tracked, the next snapshot returns only A and C,
and B is gone afterwards. -/
theorem poll_snapshot_determines_tracked_set_witness :
    "B" ∉ ([jobA, jobC].map Job.job_id) ∧
    "B" ∈ stateABC.jobs.map Job.job_id ∧
    "B" ∉ ((refreshJobs (Except.ok [jobA, jobC]) stateABC).jobs.map Job.job_id) := by
  have h : "B" ∉ ([jobA, jobC].map Job.job_id) := by decide
  exact ⟨h, by decide,
    (poll_snapshot_determines_tracked_set [jobA, jobC] stateABC).2 "B" h⟩

/-- C4: when the remote system rejects a cancel, retry or delete command, the
handler leaves the local queue state unchanged, reports the failure through an
alert, and issues the remote command exactly once (no automatic retry). -/
theorem rejected_command_leaves_state_unchanged (jobId : String) (e : RemoteError)
    (fetch : Except RemoteError (List Job)) (s : QueueState) :
    ((handleCancel jobId (Except.error e) fetch s).state = s ∧
      (handleCancel jobId (Except.error e) fetch s).remoteCalls = [jobId] ∧
      (handleCancel jobId (Except.error e) fetch s).errorReported ≠ none) ∧
    ((handleRetry jobId (Except.error e) fetch s).state = s ∧
      (handleRetry jobId (Except.error e) fetch s).remoteCalls = [jobId] ∧
      (handleRetry jobId (Except.error e) fetch s).errorReported ≠ none) ∧
    ((handleDelete jobId true (Except.error e) fetch s).state = s ∧
      (handleDelete jobId true (Except.error e) fetch s).remoteCalls = [jobId] ∧
      (handleDelete jobId true (Except.error e) fetch s).errorReported ≠ none) := by
  refine ⟨⟨rfl, rfl, ?_⟩, ⟨rfl, rfl, ?_⟩, ⟨rfl, rfl, ?_⟩⟩
  · simp [handleCancel]
  · simp [handleRetry]
  · simp [handleDelete]

/-- C8: after a remote cancel succeeds the handler immediately performs a poll
refresh — the resulting state is exactly the refreshed one; the handler never
writes a `cancelled` status itself: the jobs stored afterwards are the
snapshot's (or unchanged if the refresh's fetch failed).  The cancel button is
rendered only for `queued` or `processing` jobs. -/
theorem cancel_success_forces_immediate_refresh (jobId : String)
    (fetch : Except RemoteError (List Job)) (s : QueueState) :
    (handleCancel jobId (Except.ok ()) fetch s).state = refreshJobs fetch s ∧
    (∀ snap, fetch = Except.ok snap →
      (handleCancel jobId (Except.ok ()) fetch s).state.jobs = snap) ∧
    (∀ e, fetch = Except.error e →
      (handleCancel jobId (Except.ok ()) fetch s).state.jobs = s.jobs) ∧
    (∀ st : Status, cancelButtonVisible st = true ↔
      st = Status.queued ∨ st = Status.processing) := by
  refine ⟨rfl, ?_, ?_, ?_⟩
  · rintro snap rfl
    rfl
  · rintro e rfl
    rfl
  · intro st
    cases st <;> decide

/-- Witness for C8: cancelling a processing job succeeds, the next fetch
returns the job as cancelled, and that is what the state holds afterwards. -/
theorem cancel_success_forces_immediate_refresh_witness :
    cancelButtonVisible procJob.status = true ∧
    (handleCancel "job-4" (Except.ok ()) (Except.ok [cancelledJob])
        procQueueState).state.jobs = [cancelledJob] := by
  refine ⟨by decide, ?_⟩
  exact (cancel_success_forces_immediate_refresh "job-4"
    (Except.ok [cancelledJob]) procQueueState).2.1 [cancelledJob] rfl

/-- Counterexample for C3: invoking `handleRetry` on a job whose last known
status is `processing` still issues the remote retry call — there is no local
precondition check rejecting it before the remote call. -/
theorem retry_precondition_counterexample :
    procJob ∈ procQueueState.jobs ∧
    procJob.status = Status.processing ∧
    (handleRetry procJob.job_id (Except.ok ()) (Except.ok [procJob])
        procQueueState).remoteCalls = [procJob.job_id] ∧
    (handleRetry procJob.job_id (Except.ok ()) (Except.ok [procJob])
        procQueueState).remoteCalls ≠ [] := by
  refine ⟨?_, rfl, rfl, ?_⟩
  · simp [procQueueState]
  · simp [handleRetry]

/-- C3 (amended): `handleRetry` performs no local status precondition — it
issues the remote retry exactly once regardless of the job's status; the only
local gating is the retry button, rendered exactly when the status is
`failed` or `cancelled`. -/
theorem retry_guard_is_ui_only (jobId : String) (remote : Except RemoteError Unit)
    (fetch : Except RemoteError (List Job)) (s : QueueState) :
    (handleRetry jobId remote fetch s).remoteCalls = [jobId] ∧
    (∀ st : Status, retryButtonVisible st = true ↔
      st = Status.failed ∨ st = Status.cancelled) := by
  refine ⟨?_, ?_⟩
  · cases remote <;> rfl
  · intro st
    cases st <;> decide

/-- Counterexample for C2: a poll snapshot reporting a job as `completed`
while still carrying a queue position and progress is stored verbatim — the
reconciled record keeps both fields in the same update, nothing clears
them. -/
theorem terminal_fields_not_cleared_counterexample :
    (refreshJobs (Except.ok [terminalJobWithPos]) initialQueueState).jobs
      = [terminalJobWithPos] ∧
    terminalJobWithPos.status = Status.completed ∧
    terminalJobWithPos.queue_position = some 3 ∧
    terminalJobWithPos.progress = some progSep40 :=
  ⟨rfl, rfl, rfl, rfl⟩

/-- C2 (amended): the job record stores the poll snapshot verbatim (no field
clearing on a terminal transition).  The progress section — percentage,
stage and message — is rendered only while the status is `processing` or
`queued`, and its guard never reads the push value, so a terminal job never
shows that section and a stale push event cannot make it appear.  The
enforcement stops there: the unguarded metadata time display presents a
truthy push-derived `elapsed_seconds` whatever the status (a stale push does
reintroduce presented elapsed time on a terminal job), and the queue-position
message depends only on `queue_position`, not on the status. -/
theorem terminal_job_renders_no_progress (snap : List Job) (s : QueueState) :
    ((refreshJobs (Except.ok snap) s).jobs = snap) ∧
    (∀ (pv : Option Progress) (j : Job), j.status.isTerminal = true →
      progressSectionRendered pv j = false) ∧
    (∀ (pv pv' : Option Progress) (j : Job),
      progressSectionRendered pv j = progressSectionRendered pv' j) ∧
    (∀ (j : Job) (p : Progress) (t : ℚ), numTruthy p.elapsed_seconds = some t →
      elapsedSecondsSelected (some p) j = some t) ∧
    (∀ (j j' : Job), j.queue_position = j'.queue_position →
      queueMessage j = queueMessage j') := by
  refine ⟨rfl, ?_, fun _ _ _ => rfl, ?_, ?_⟩
  · intro pv j h
    unfold progressSectionRendered
    cases hst : j.status <;>
      simp [Status.isTerminal, hst] at h ⊢
  · intro j p t h
    simp [elapsedSecondsSelected, h]
  · intro j j' h
    simp [queueMessage, h]

/-- Witness for C2 (amended): the completed job with leftover fields renders
no progress section whatever push value is present, yet the unguarded time
display presents the elapsed seconds of a stale push event for it, and the
leftover queue position yields the same queue message as on a non-terminal
job. -/
theorem terminal_job_renders_no_progress_witness :
    terminalJobWithPos.status.isTerminal = true ∧
    progressSectionRendered (some pushTrans) terminalJobWithPos = false ∧
    numTruthy pushTrans.elapsed_seconds = some 30 ∧
    elapsedSecondsSelected (some pushTrans) terminalJobWithPos = some 30 ∧
    queueMessage terminalJobWithPos =
      queueMessage (sampleJob "job-9" Status.queued (some 3) none) := by
  have h := terminal_job_renders_no_progress [] initialQueueState
  have ht : numTruthy pushTrans.elapsed_seconds = some 30 := by decide
  exact ⟨by decide, h.2.1 (some pushTrans) terminalJobWithPos (by decide), ht,
    h.2.2.2.1 terminalJobWithPos pushTrans 30 ht,
    h.2.2.2.2 terminalJobWithPos (sampleJob "job-9" Status.queued (some 3) none) (by decide)⟩

/-- Counterexample for C9: the display shows 40 percent from the stored poll
record; a later poll snapshot lacking `percentage` replaces the record
wholesale, and with no push value the displayed percentage drops to 0. -/
theorem absent_percentage_zeroed_counterexample :
    progressPercentage none jobSep40 = 40 ∧
    (refreshJobs (Except.ok [jobNoPct]) stateSep40).jobs = [jobNoPct] ∧
    jobNoPct.progress.bind Progress.percentage = none ∧
    progressPercentage none jobNoPct = 0 := by
  refine ⟨?_, rfl, rfl, rfl⟩
  simp [progressPercentage, jobSep40, progSep40, sampleJob]
  norm_num [jsRound]

/-- C9 (amended): the displayed percentage follows the push-then-poll
fallback chain — the push value's percentage when defined, else the current
poll record's percentage when defined, else 0 — and likewise a truthy push
elapsed time wins; a successful poll stores the snapshot wholesale, so an
absent field in a snapshot is not retained from the previous record. -/
theorem percentage_fallback_chain :
    (∀ (pv : Option Progress) (j : Job) (q : ℚ),
      pv.bind Progress.percentage = some q →
      progressPercentage pv j = jsRound q) ∧
    (∀ (pv : Option Progress) (j : Job) (q : ℚ),
      pv.bind Progress.percentage = none →
      j.progress.bind Progress.percentage = some q →
      progressPercentage pv j = jsRound q) ∧
    (∀ (pv : Option Progress) (j : Job),
      pv.bind Progress.percentage = none →
      j.progress.bind Progress.percentage = none →
      progressPercentage pv j = 0) ∧
    (∀ (pv : Option Progress) (j : Job) (t : ℚ),
      numTruthy (pv.bind Progress.elapsed_seconds) = some t →
      elapsedSecondsSelected pv j = some t) ∧
    (∀ (snap : List Job) (s : QueueState),
      (refreshJobs (Except.ok snap) s).jobs = snap) := by
  refine ⟨?_, ?_, ?_, ?_, fun snap s => rfl⟩
  · intro pv j q h
    simp [progressPercentage, h]
  · intro pv j q h1 h2
    simp [progressPercentage, h1, h2]
  · intro pv j h1 h2
    simp [progressPercentage, h1, h2]
  · intro pv j t h
    simp [elapsedSecondsSelected, h]

/-- Witness for C9 (amended): a push value with percentage 10 makes the card
display 10, whatever the poll record holds. -/
theorem percentage_fallback_chain_witness :
    (some pushTrans).bind Progress.percentage = some 10 ∧
    progressPercentage (some pushTrans) jobSep40 = jsRound 10 ∧
    jsRound 10 = 10 := by
  refine ⟨rfl, percentage_fallback_chain.1 (some pushTrans) jobSep40 10 rfl, ?_⟩
  norm_num [jsRound]

/-- A key outside the catalog gets index `-1`, as `findIndex` returns for a
missing element. -/
lemma stageIdx_of_not_mem (ck : String) (h : ck ∉ steps) : stageIdx ck = -1 := by
  simp only [steps, List.mem_cons, List.not_mem_nil, or_false, not_or] at h
  obtain ⟨h1, h2, h3, h4, h5⟩ := h
  simp [stageIdx, steps, findIndexFrom, Ne.symm h1, Ne.symm h2, Ne.symm h3,
    Ne.symm h4, Ne.symm h5]

/-- C6: for catalog keys, a target stage is `completed` exactly when its
ordinal position is strictly below the current stage's, `active` exactly when
the positions agree, and `pending` exactly when it is above; an unreported or
unknown current key makes every target `pending`.  `getStepStatus` is this
classification applied to the resolved current key. -/
theorem stage_classification (ck tk : String) :
    (ck ∈ steps → tk ∈ steps →
      ((classifyStep (some ck) tk = StepStatus.completed ↔ stageIdx tk < stageIdx ck) ∧
       (classifyStep (some ck) tk = StepStatus.active ↔ stageIdx tk = stageIdx ck) ∧
       (classifyStep (some ck) tk = StepStatus.pending ↔ stageIdx ck < stageIdx tk))) ∧
    (classifyStep none tk = StepStatus.pending) ∧
    (ck ∉ steps → classifyStep (some ck) tk = StepStatus.pending) ∧
    (∀ (pv : Option Progress) (j : Job),
      getStepStatus pv j tk = classifyStep (currentStepKey pv j) tk) := by
  refine ⟨?_, rfl, ?_, fun pv j => rfl⟩
  · intro hck htk
    simp only [steps] at hck htk
    fin_cases hck <;> fin_cases htk <;> exact ⟨by decide, by decide, by decide⟩
  · intro h
    simp [classifyStep, stageIdx_of_not_mem ck h]

/-- Witness for C6: with current stage `separating`, the `downloading` stage
is completed; with no current stage reported, it is pending. -/
theorem stage_classification_witness :
    ("separating" ∈ steps) ∧ ("downloading" ∈ steps) ∧
    classifyStep (some "separating") "downloading" = StepStatus.completed ∧
    classifyStep none "downloading" = StepStatus.pending := by
  have h := stage_classification "separating" "downloading"
  exact ⟨by decide, by decide,
    ((h.1 (by decide) (by decide)).1).mpr (by decide), h.2.1⟩

/-- Running a sequence of updates keeps the latest push payload and the
latest polled record, independently of how the two kinds interleave. -/
lemma runEvents_eq (evs : List TrackEvent) :
    ∀ s : TrackState,
      runEvents s evs =
        { pushVal := lastPushFrom s.pushVal evs, job := lastPollFrom s.job evs } := by
  induction evs with
  | nil =>
    intro s
    rfl
  | cons e evs ih =>
    intro s
    cases e with
    | push p =>
      have h := ih { s with pushVal := some p }
      simpa [runEvents, lastPushFrom, lastPollFrom, stepEvent] using h
    | poll j =>
      have h := ih { s with job := j }
      simpa [runEvents, lastPushFrom, lastPollFrom, stepEvent] using h

/-- Field selections of the card against a stored push value: each presented
value is the push field when the corresponding check of the card accepts it,
else exactly the value the card would compute from the poll record alone. -/
lemma displayedProgress_fieldwise (p : Progress) (j : Job) :
    (∀ q : ℚ, p.percentage = some q →
      (displayedProgress (some p) j).percentage = jsRound q) ∧
    (p.percentage = none →
      (displayedProgress (some p) j).percentage = progressPercentage none j) ∧
    (∀ m : String, strTruthy p.message = some m →
      (displayedProgress (some p) j).message = m) ∧
    (strTruthy p.message = none →
      (displayedProgress (some p) j).message = currentStepMessage none j) ∧
    (∀ sk : String, strTruthy p.step = some sk →
      (displayedProgress (some p) j).stage = some sk) ∧
    (strTruthy p.step = none →
      (displayedProgress (some p) j).stage = currentStepKey none j) ∧
    (∀ t : ℚ, numTruthy p.elapsed_seconds = some t →
      (displayedProgress (some p) j).elapsed = some t) ∧
    (numTruthy p.elapsed_seconds = none →
      (displayedProgress (some p) j).elapsed = elapsedSecondsSelected none j) := by
  refine ⟨?_, ?_, ?_, ?_, ?_, ?_, ?_, ?_⟩
  · intro q h
    simp [displayedProgress, progressPercentage, h]
  · intro h
    simp [displayedProgress, progressPercentage, h]
  · intro m h
    simp [displayedProgress, currentStepMessage, h]
  · intro h
    simp only [displayedProgress, currentStepMessage, Option.some_bind, Option.none_bind]
    rw [h]
    simp [strTruthy]
  · intro sk h
    simp [displayedProgress, currentStepKey, h]
  · intro h
    simp only [displayedProgress, currentStepKey, Option.some_bind, Option.none_bind]
    rw [h]
    simp [strTruthy]
  · intro t h
    simp [displayedProgress, elapsedSecondsSelected, h]
  · intro h
    simp only [displayedProgress, elapsedSecondsSelected, Option.some_bind, Option.none_bind]
    rw [h]
    simp [numTruthy]

/-- C1 (amended): starting from a state with no push value received, after
any interleaving of poll snapshots and push events the stored push value is
the most recently received push event and the stored record is the latest
poll snapshot (a later poll never overwrites the push value, which persists
with no reset at a poll-cycle start).  When a push event has been received,
each presented progress value is taken field-wise from that event whenever
the check of the card accepts the field (a defined percentage, a nonempty
message, a nonempty step key, a nonzero elapsed time), and falls back to the
value computed from the poll record alone otherwise.  Only when no push event
has ever been received do all presented values derive from the latest poll
snapshot. -/
theorem push_precedence_sticky (evs : List TrackEvent) (j0 : Job) :
    (runEvents { pushVal := none, job := j0 } evs =
      { pushVal := lastPushFrom none evs, job := lastPollFrom j0 evs }) ∧
    (∀ p : Progress, lastPushFrom none evs = some p →
      ((∀ q : ℚ, p.percentage = some q →
        (displayedProgress (runEvents { pushVal := none, job := j0 } evs).pushVal
          (runEvents { pushVal := none, job := j0 } evs).job).percentage = jsRound q) ∧
       (p.percentage = none →
        (displayedProgress (runEvents { pushVal := none, job := j0 } evs).pushVal
          (runEvents { pushVal := none, job := j0 } evs).job).percentage =
          progressPercentage none (lastPollFrom j0 evs)) ∧
       (∀ m : String, strTruthy p.message = some m →
        (displayedProgress (runEvents { pushVal := none, job := j0 } evs).pushVal
          (runEvents { pushVal := none, job := j0 } evs).job).message = m) ∧
       (strTruthy p.message = none →
        (displayedProgress (runEvents { pushVal := none, job := j0 } evs).pushVal
          (runEvents { pushVal := none, job := j0 } evs).job).message =
          currentStepMessage none (lastPollFrom j0 evs)) ∧
       (∀ sk : String, strTruthy p.step = some sk →
        (displayedProgress (runEvents { pushVal := none, job := j0 } evs).pushVal
          (runEvents { pushVal := none, job := j0 } evs).job).stage = some sk) ∧
       (strTruthy p.step = none →
        (displayedProgress (runEvents { pushVal := none, job := j0 } evs).pushVal
          (runEvents { pushVal := none, job := j0 } evs).job).stage =
          currentStepKey none (lastPollFrom j0 evs)) ∧
       (∀ t : ℚ, numTruthy p.elapsed_seconds = some t →
        (displayedProgress (runEvents { pushVal := none, job := j0 } evs).pushVal
          (runEvents { pushVal := none, job := j0 } evs).job).elapsed = some t) ∧
       (numTruthy p.elapsed_seconds = none →
        (displayedProgress (runEvents { pushVal := none, job := j0 } evs).pushVal
          (runEvents { pushVal := none, job := j0 } evs).job).elapsed =
          elapsedSecondsSelected none (lastPollFrom j0 evs)))) ∧
    (lastPushFrom none evs = none →
      displayedProgress (runEvents { pushVal := none, job := j0 } evs).pushVal
          (runEvents { pushVal := none, job := j0 } evs).job =
        displayedProgress none (lastPollFrom j0 evs)) := by
  refine ⟨runEvents_eq evs _, ?_, ?_⟩
  · intro p hlast
    rw [runEvents_eq]
    simp only [hlast]
    exact displayedProgress_fieldwise p (lastPollFrom j0 evs)
  · intro hnone
    rw [runEvents_eq]
    simp only [hnone]

/-- Witness for C1 (amended): a push event with a defined percentage but an
empty message and zero elapsed time, followed by a poll snapshot — the card
presents the push percentage, yet message and elapsed time fall back to the
poll record. -/
theorem push_precedence_sticky_witness :
    lastPushFrom none [TrackEvent.push pushEmptyMsg, TrackEvent.poll jobSep42]
      = some pushEmptyMsg ∧
    pushEmptyMsg.percentage = some 10 ∧
    (displayedProgress
        (runEvents { pushVal := none, job := jobSep40 }
          [TrackEvent.push pushEmptyMsg, TrackEvent.poll jobSep42]).pushVal
        (runEvents { pushVal := none, job := jobSep40 }
          [TrackEvent.push pushEmptyMsg, TrackEvent.poll jobSep42]).job).percentage
      = jsRound 10 ∧
    strTruthy pushEmptyMsg.message = none ∧
    (displayedProgress
        (runEvents { pushVal := none, job := jobSep40 }
          [TrackEvent.push pushEmptyMsg, TrackEvent.poll jobSep42]).pushVal
        (runEvents { pushVal := none, job := jobSep40 }
          [TrackEvent.push pushEmptyMsg, TrackEvent.poll jobSep42]).job).message
      = currentStepMessage none
          (lastPollFrom jobSep40 [TrackEvent.push pushEmptyMsg, TrackEvent.poll jobSep42]) ∧
    numTruthy pushEmptyMsg.elapsed_seconds = none ∧
    (displayedProgress
        (runEvents { pushVal := none, job := jobSep40 }
          [TrackEvent.push pushEmptyMsg, TrackEvent.poll jobSep42]).pushVal
        (runEvents { pushVal := none, job := jobSep40 }
          [TrackEvent.push pushEmptyMsg, TrackEvent.poll jobSep42]).job).elapsed
      = elapsedSecondsSelected none
          (lastPollFrom jobSep40 [TrackEvent.push pushEmptyMsg, TrackEvent.poll jobSep42]) := by
  have h := (push_precedence_sticky
    [TrackEvent.push pushEmptyMsg, TrackEvent.poll jobSep42] jobSep40).2.1
    pushEmptyMsg rfl
  refine ⟨rfl, rfl, h.1 10 rfl, ?_, h.2.2.2.1 ?_, ?_, h.2.2.2.2.2.2.2 ?_⟩
  · decide
  · decide
  · simp [pushEmptyMsg, numTruthy]
  · simp [pushEmptyMsg, numTruthy]


/-- Counterexample for C1 as stated: a push event at 10 percent is followed
by two poll deliveries, the second starting a fresh poll cycle with no push
after it and reporting 42 percent — yet the presented percentage is still the
push event's 10, not the poll snapshot's 42: poll progress never wins back
once a push value exists. -/
theorem push_precedence_sticky_counterexample :
    (displayedProgress
        (runEvents { pushVal := none, job := jobSep40 }
          [TrackEvent.push pushTrans, TrackEvent.poll jobSep40,
            TrackEvent.poll jobSep42]).pushVal
        (runEvents { pushVal := none, job := jobSep40 }
          [TrackEvent.push pushTrans, TrackEvent.poll jobSep40,
            TrackEvent.poll jobSep42]).job).percentage = 10 ∧
    (displayedProgress none jobSep42).percentage = 42 ∧
    ((10 : ℤ) ≠ 42) := by
  have hrun : runEvents { pushVal := none, job := jobSep40 }
      [TrackEvent.push pushTrans, TrackEvent.poll jobSep40,
        TrackEvent.poll jobSep42] =
      { pushVal := some pushTrans, job := jobSep42 } := rfl
  refine ⟨?_, ?_, by norm_num⟩
  · rw [hrun]
    simp [displayedProgress, progressPercentage, pushTrans]
    norm_num [jsRound]
  · simp [displayedProgress, progressPercentage, jobSep42, progSep42, sampleJob]
    norm_num [jsRound]

/-- Return values already logged are still in the log after further calls. -/
lemma notif_rets_monotone (calls : List NotifCall) :
    ∀ (flag : Bool) (rets : List Bool) (r : Bool),
      r ∈ rets → r ∈ (calls.foldl notifStep (flag, rets)).2 := by
  induction calls with
  | nil =>
    intro flag rets r hr
    simpa using hr
  | cons c calls ih =>
    intro flag rets r hr
    cases c with
    | request b =>
      exact ih _ _ r (List.mem_append.mpr (Or.inl hr))
    | showNotif b t bd tg =>
      exact ih flag rets r hr

/-- If a request call starting from a cleared flag returned `false`, the flag
is still cleared afterwards. -/
lemma request_false_keeps_flag (b : Browser) :
    (requestNotificationPermission b false).1 = false →
    (requestNotificationPermission b false).2 = false := by
  unfold requestNotificationPermission
  split_ifs <;> simp

/-- If every logged request return value is `false`, the module flag stays
`false` through the whole call sequence. -/
lemma notif_flag_false (calls : List NotifCall) :
    ∀ (flag : Bool) (rets : List Bool),
      flag = false →
      (∀ r ∈ (calls.foldl notifStep (flag, rets)).2, r = false) →
      (calls.foldl notifStep (flag, rets)).1 = false := by
  induction calls with
  | nil =>
    intro flag rets hf _
    simpa using hf
  | cons c calls ih =>
    intro flag rets hf hall
    subst hf
    cases c with
    | showNotif b t bd tg =>
      exact ih false rets rfl (by simpa [notifStep] using hall)
    | request b =>
      simp only [List.foldl_cons, notifStep] at hall ⊢
      have hmem : (requestNotificationPermission b false).1 ∈
          (calls.foldl notifStep ((requestNotificationPermission b false).2,
            rets ++ [(requestNotificationPermission b false).1])).2 :=
        notif_rets_monotone calls _ _ _ (by simp)
      have h1 : (requestNotificationPermission b false).1 = false := hall _ hmem
      exact ih _ _ (request_false_keeps_flag b h1) hall

/-- C10: while no `requestNotificationPermission` call has returned `true`
(the flag starts `false`), every `showNotification` — hence every
`notifyJobComplete` — returns `null` and constructs no notification; the flag
becomes `true` only through a request call that itself returned `true`, and a
request returns `true` only when it observes an already-granted permission or
obtains `granted` from the permission prompt. -/
theorem notifications_blocked_without_grant (calls : List NotifCall) :
    ((∀ r ∈ (notifTrace calls).2, r = false) →
      ((notifTrace calls).1 = false ∧
       (∀ (b : Browser) (title : String) (body tag : Option String),
         showNotification b (notifTrace calls).1 title body tag = none) ∧
       (∀ (b : Browser) (jt : String) (isS : Bool),
         notifyJobComplete b (notifTrace calls).1 jt isS = none))) ∧
    ((notifTrace []).1 = false) ∧
    (∀ (b : Browser) (flag : Bool),
      (requestNotificationPermission b flag).2 = true →
      (requestNotificationPermission b flag).1 = true ∨ flag = true) ∧
    (∀ (b : Browser) (flag : Bool),
      (requestNotificationPermission b flag).1 = true →
      b.permission = Permission.granted ∨
        (b.hasNotifications = true ∧ b.requestOutcome = Permission.granted)) := by
  refine ⟨?_, rfl, ?_, ?_⟩
  · intro hall
    have hf : (notifTrace calls).1 = false :=
      notif_flag_false calls false [] rfl hall
    refine ⟨hf, ?_, ?_⟩
    · intro b title body tag
      rw [hf]
      simp [showNotification]
    · intro b jt isS
      rw [hf]
      simp [notifyJobComplete, showNotification]
  · intro b flag h
    unfold requestNotificationPermission at h ⊢
    split_ifs at h ⊢ <;> simp_all
  · intro b flag h
    unfold requestNotificationPermission at h
    split_ifs at h with h1 h2 h3 <;> simp_all

/-- Witness for C10: a request against a denied browser returns `false`, and
a subsequent notification attempt yields `null`. -/
theorem notifications_blocked_without_grant_witness :
    (∀ r ∈ (notifTrace [NotifCall.request deniedBrowser]).2, r = false) ∧
    showNotification deniedBrowser
      (notifTrace [NotifCall.request deniedBrowser]).1 "Job Completed!"
      none none = none ∧
    notifyJobComplete deniedBrowser
      (notifTrace [NotifCall.request deniedBrowser]).1 "Song" true = none := by
  have hall : ∀ r ∈ (notifTrace [NotifCall.request deniedBrowser]).2, r = false := by
    decide
  have h := (notifications_blocked_without_grant
    [NotifCall.request deniedBrowser]).1 hall
  exact ⟨hall, h.2.1 deniedBrowser "Job Completed!" none none,
    h.2.2 deniedBrowser "Song" true⟩

end UltraSinger
